import Mathlib

/-!
Shallow embedding of the `Field` game engine from `src/main.rs`
(pipebomb-sweeper), together with theorems checking the specification's
claims about it.

Conventions of the embedding:
* The grid `Vec<Vec<Cell>>` is modelled as a total function
  `Nat → Nat → Cell`; every field built by the engine has fixed
  `rows × cols` dimensions and only in-bounds cells are ever observed.
* `usize` is `Nat`; `isize` is `Int`.  A `usize` subtraction that can
  underflow is modelled by `usize_sub`, returning `none` on underflow
  (Rust's overflow-checked panic).
* `rng.gen_range(0..n)` is modelled by an arbitrary stream
  `rng : Nat → Nat × Nat` whose i-th value is reduced `mod n`, covering
  every possible sequence of in-range rolls.
* The recursive `check_at` is modelled with explicit fuel, returning
  `none` when the fuel runs out; a run of the Rust recursion that
  terminates is `some` for all sufficiently large fuel, and a
  non-terminating run is `none` for every fuel.
-/

namespace Sweeper

/-- `const PIPEBOMB: &str = "@"` -/
def PIPEBOMB : String := "@"

/-- `enum State { Open, Closed, Flagged }` -/
inductive State : Type
| Open : State
| Closed : State
| Flagged : State
deriving DecidableEq

/-- `enum Orientation { Vertical, Horizontal }` -/
inductive Orientation : Type
| Vertical : Orientation
| Horizontal : Orientation
deriving DecidableEq

/-- `struct Cell { state: State, pipebomb: bool }` -/
structure Cell : Type where
  state : State
  pipebomb : Bool
deriving DecidableEq

/-- `Cell::empty()` -/
def Cell.empty : Cell := { state := State.Closed, pipebomb := false }

/-- `struct Field`; `cells` is the `Vec<Vec<Cell>>` as a total function. -/
structure Field : Type where
  rows : Nat
  cols : Nat
  cells : Nat → Nat → Cell
  bomb_pcnt : Nat
  cursor : Nat × Nat

/-- `Field::new(rows, cols, bomb_pcnt)` -/
def Field.new (rows cols bomb_pcnt : Nat) : Field :=
  { rows := rows
    cols := cols
    cells := fun _ _ => Cell.empty
    bomb_pcnt := if bomb_pcnt > 100 then 100 else bomb_pcnt
    cursor := (0, 0) }

/-- `self.cells[row][col].pipebomb` -/
def Field.has_bomb_at (f : Field) (row col : Nat) : Bool :=
  (f.cells row col).pipebomb

/-- `row == self.cursor[0] && col == self.cursor[1]` -/
def Field.is_cursor_at (f : Field) (row col : Nat) : Bool :=
  decide (row = f.cursor.1) && decide (col = f.cursor.2)

/-- Writing one cell of the grid (`self.cells[row][col] = ...`). -/
def Field.set_cell (f : Field) (row col : Nat) (cell : Cell) : Field :=
  { f with cells := fun i j => if i = row ∧ j = col then cell else f.cells i j }

/-- `Field::set_bomb_at`: places a bomb unless the cell already has one or
is under the cursor; returns whether a bomb was placed. -/
def Field.set_bomb_at (f : Field) (row col : Nat) : Field × Bool :=
  let has_bomb := f.has_bomb_at row col
  if !has_bomb && !(f.is_cursor_at row col) then
    (f.set_cell row col { f.cells row col with pipebomb := true }, true)
  else
    (f, false)

/-- The cell-reset loop at the start of `Field::randomize` (every in-bounds
cell is overwritten with `Cell::empty()`). -/
def Field.reset_cells (f : Field) : Field :=
  { f with cells := fun i j => if i < f.rows ∧ j < f.cols then Cell.empty else f.cells i j }

/-- `while self.set_bomb_at(row, col) {}` — the guard itself performs the
placement; once a bomb has been placed the re-check on the same cell
returns `false`, so the loop runs its guard at most twice
(see `set_bomb_at_again` below). -/
def Field.while_set_bomb_at (f : Field) (row col : Nat) : Field :=
  let p := f.set_bomb_at row col
  if p.2 then (p.1.set_bomb_at row col).1 else p.1

/-- `Field::randomize`, with the random stream passed explicitly. -/
def Field.randomize (f : Field) (rng : Nat → Nat × Nat) : Field :=
  let f := f.reset_cells
  let bomb_count := (f.rows * f.rows * f.bomb_pcnt + 99) / 100
  (List.range bomb_count).foldl
    (fun g i =>
      let row := (rng i).1 % g.rows
      let col := (rng i).2 % g.cols
      g.while_set_bomb_at row col)
    f

/-- `Field::out_of_bounds(irow, icol)` -/
def Field.out_of_bounds (f : Field) (irow icol : Int) : Bool × Bool :=
  (decide (irow < 0) || decide ((f.rows : Int) ≤ irow),
   decide (icol < 0) || decide ((f.cols : Int) ≤ icol))

/-- `Field::bombs_around(irow, icol)`: the doubly nested `-1..=1` loop. -/
def Field.bombs_around (f : Field) (irow icol : Int) : Nat :=
  ([-1, 0, 1] : List Int).foldl
    (fun acc i =>
      ([-1, 0, 1] : List Int).foldl
        (fun acc j =>
          if i = 0 ∧ j = 0 then acc
          else
            let r := irow + i
            let c := icol + j
            if r < 0 ∨ (f.rows : Int) ≤ r ∨ c < 0 ∨ (f.cols : Int) ≤ c then acc
            else if f.has_bomb_at r.toNat c.toNat then acc + 1 else acc)
        acc)
    0

/-- The neighbor-counting loop inlined in `Field::cell_str_at`
(duplicating `bombs_around` with `row as isize + i`). -/
def Field.cell_str_count (f : Field) (row col : Nat) : Nat :=
  ([-1, 0, 1] : List Int).foldl
    (fun acc i =>
      ([-1, 0, 1] : List Int).foldl
        (fun acc j =>
          if i = 0 ∧ j = 0 then acc
          else
            let r := (row : Int) + i
            let c := (col : Int) + j
            if r < 0 ∨ (f.rows : Int) ≤ r ∨ c < 0 ∨ (f.cols : Int) ≤ c then acc
            else if f.has_bomb_at r.toNat c.toNat then acc + 1 else acc)
        acc)
    0

/-- `Field::cell_str_at(row, col)` (the `Open` glyph of the renderer). -/
def Field.cell_str_at (f : Field) (row col : Nat) : String :=
  if f.has_bomb_at row col then PIPEBOMB
  else
    let bomb_count := f.cell_str_count row col
    if bomb_count > 0 then toString bomb_count else " "

/-- `Field::open_at(row, col)` -/
def Field.open_at (f : Field) (row col : Nat) : Field :=
  f.set_cell row col { f.cells row col with state := State.Open }

/-- `Field::check_at(row, col)` with explicit fuel.  The eight guarded
neighbor visits are the source's Up, Left, Down, Right, Diag UL, Diag DL,
Diag UR, Diag DR blocks, in that order. -/
def Field.check_at : Nat → Field → Nat → Nat → Option Field
  | 0, _, _, _ => none
  | fuel + 1, f, row, col =>
    if (f.cells row col).pipebomb then some f
    else if 0 < f.bombs_around (row : Int) (col : Int) then some (f.open_at row col)
    else if (f.cells row col).state = State.Open then some f
    else
      -- `match` residue: `Closed` opens the cell, `Flagged` falls through.
      let f := if (f.cells row col).state = State.Closed then f.open_at row col else f
      let poob := f.out_of_bounds ((row : Int) + 1) ((col : Int) + 1)
      let noob := f.out_of_bounds ((row : Int) - 1) ((col : Int) - 1)
      [(!noob.1, row - 1, col),
       (!noob.2, row, col - 1),
       (!poob.1, row + 1, col),
       (!poob.2, row, col + 1),
       (!noob.1 && !noob.2, row - 1, col - 1),
       (!poob.1 && !noob.2, row + 1, col - 1),
       (!noob.1 && !poob.2, row - 1, col + 1),
       (!poob.1 && !poob.2, row + 1, col + 1)].foldlM
        (fun g step => if step.1 then Field.check_at fuel g step.2.1 step.2.2 else some g)
        f

/-- `Field::open_at_cursor`; the interactive Y/N confirmation loop of the
`Flagged` branch is modelled by the pre-confirmed boolean `confirm`. -/
def Field.open_at_cursor (fuel : Nat) (f : Field) (confirm : Bool) : Option (Field × Bool) :=
  let row := f.cursor.1
  let col := f.cursor.2
  match (f.cells row col).state with
  | State.Closed =>
    (Field.check_at fuel f row col).map (fun g => (g, (g.cells row col).pipebomb))
  | State.Flagged =>
    if confirm then
      (Field.check_at fuel f row col).map (fun g => (g, (g.cells row col).pipebomb))
    else
      some (f, (f.cells row col).pipebomb)
  | State.Open => some (f, (f.cells row col).pipebomb)

/-- `usize` subtraction: `none` models the overflow-checked panic on
underflow. -/
def usize_sub (a b : Nat) : Option Nat :=
  if b ≤ a then some (a - b) else none

/-- `Field::inc_cursor`; the guard computes `self.rows - 1`
(resp. `self.cols - 1`) on `usize`, which underflows when the dimension
is zero. -/
def Field.inc_cursor (f : Field) (o : Orientation) : Option Field :=
  match o with
  | Orientation.Vertical =>
    (usize_sub f.rows 1).map (fun m =>
      if f.cursor.1 < m then { f with cursor := (f.cursor.1 + 1, f.cursor.2) } else f)
  | Orientation.Horizontal =>
    (usize_sub f.cols 1).map (fun m =>
      if f.cursor.2 < m then { f with cursor := (f.cursor.1, f.cursor.2 + 1) } else f)

/-- `Field::victory()` -/
def Field.victory (f : Field) : Bool :=
  (List.range f.rows).all fun i =>
    (List.range f.cols).all fun j =>
      !(!(f.cells i j).pipebomb && !decide ((f.cells i j).state = State.Open))

/-- Measurement: the number of in-bounds cells carrying a bomb. -/
def Field.bombTotal (f : Field) : Nat :=
  (List.range f.rows).foldl
    (fun acc i => acc + (List.range f.cols).countP (fun j => f.has_bomb_at i j)) 0

/-- The eight neighbor offsets, in the order the source loops scan them. -/
def neighborOffsets : List (Int × Int) :=
  [(-1, -1), (-1, 0), (-1, 1), (0, -1), (0, 1), (1, -1), (1, 0), (1, 1)]

/-- Specification-side adjacency count: each of the eight proper neighbor
offsets contributes 1 exactly when it lands in bounds on a bomb-carrying
cell (out-of-bounds neighbors contribute 0, and the cell itself is not an
offset).  A pure function of the field. -/
def Field.neighborCount (f : Field) (irow icol : Int) : Nat :=
  (neighborOffsets.map (fun d =>
    if irow + d.1 < 0 ∨ (f.rows : Int) ≤ irow + d.1 ∨
       icol + d.2 < 0 ∨ (f.cols : Int) ≤ icol + d.2 then 0
    else if f.has_bomb_at (irow + d.1).toNat (icol + d.2).toNat then 1 else 0)).sum

/-! ### Concrete fields used as failing inputs and witnesses -/

/-- A 1×2 field, both cells `Flagged`, no bombs, density 0: reachable by
`new(1,2,0)`, `randomize` (which places 0 bombs), flagging both cells and
leaving the cursor on `(0,1)`. -/
def twoFlagged : Field :=
  { rows := 1, cols := 2
    cells := fun _ _ => { state := State.Flagged, pipebomb := false }
    bomb_pcnt := 0, cursor := (0, 1) }

/-- A 1×3 field with `(0,0)` Closed and `(0,1)`, `(0,2)` Flagged, no
bombs: reachable by `new(1,3,0)`, `randomize`, flagging the two right
cells and returning the cursor to `(0,0)`. -/
def threeFlagged : Field :=
  { rows := 1, cols := 3
    cells := fun _ j =>
      { state := if j = 0 then State.Closed else State.Flagged, pipebomb := false }
    bomb_pcnt := 0, cursor := (0, 0) }

/-- `threeFlagged` after its `(0,0)` cell has been opened. -/
def threeFlaggedOpen : Field := threeFlagged.open_at 0 0

/-- A 1×3 field: `(0,0)` Closed hazard-free, `(0,1)` Flagged hazard-free
(adjacency 1), `(0,2)` Closed with a bomb. -/
def flagBorderField : Field :=
  { rows := 1, cols := 3
    cells := fun _ j =>
      if j = 1 then { state := State.Flagged, pipebomb := false }
      else if j = 2 then { state := State.Closed, pipebomb := true }
      else { state := State.Closed, pipebomb := false }
    bomb_pcnt := 0, cursor := (0, 0) }

/-- A 2×2 field at density 50, cursor `(0,0)`. -/
def squareField : Field := Field.new 2 2 50

/-- A field constructed with zero rows. -/
def zeroRowField : Field := Field.new 0 5 16

/-- A 1×1 field whose only cell is Flagged and hazard-free. -/
def oneFlagged : Field :=
  { rows := 1, cols := 1
    cells := fun _ _ => { state := State.Flagged, pipebomb := false }
    bomb_pcnt := 0, cursor := (0, 0) }

/-- A 1×1 field whose only cell is Open and carries a bomb. -/
def oneOpenBomb : Field :=
  { rows := 1, cols := 1
    cells := fun _ _ => { state := State.Open, pipebomb := true }
    bomb_pcnt := 0, cursor := (0, 0) }

/-- A 1×1 field whose only cell is Closed and carries a bomb. -/
def oneClosedBomb : Field :=
  { rows := 1, cols := 1
    cells := fun _ _ => { state := State.Closed, pipebomb := true }
    bomb_pcnt := 0, cursor := (0, 0) }

/-- How one (terminating) `check_at` call can relate the initial field to
the final field: the grid shape, bomb layout and cursor are unchanged,
and a cell's state either persists or has become `Open`, the latter only
for a hazard-free cell that was `Closed` or has positive adjacency. -/
def Evolves (f f' : Field) : Prop :=
  f'.rows = f.rows ∧ f'.cols = f.cols ∧ f'.bomb_pcnt = f.bomb_pcnt ∧
  f'.cursor = f.cursor ∧
  ∀ i j, (f'.cells i j).pipebomb = (f.cells i j).pipebomb ∧
    ((f'.cells i j).state = (f.cells i j).state ∨
      ((f'.cells i j).state = State.Open ∧ (f.cells i j).pipebomb = false ∧
        ((f.cells i j).state = State.Closed ∨ 0 < f.bombs_around (i : Int) (j : Int))))

/-- The contribution of one neighbor offset: 1 exactly when it is in
bounds (`¬P`) and carries a bomb (`Q`). -/
def indicator (P Q : Prop) [Decidable P] [Decidable Q] : Nat :=
  if P then 0 else if Q then 1 else 0

/-! ### Helper lemmas -/

/-- After `set_bomb_at(row, col)` has run once, running it again on the same
cell reports no placement: the `while set_bomb_at(row, col) {}` guard is
false after at most two evaluations, which justifies `while_set_bomb_at`. -/
theorem set_bomb_at_again (f : Field) (row col : Nat) :
    (((f.set_bomb_at row col).1).set_bomb_at row col).2 = false := by
  by_cases h : (!f.has_bomb_at row col && !(f.is_cursor_at row col)) = true
  · simp only [Field.set_bomb_at, h, if_pos]
    have hb : ((f.set_cell row col { f.cells row col with pipebomb := true }).has_bomb_at
        row col) = true := by
      simp [Field.has_bomb_at, Field.set_cell]
    simp [Field.set_bomb_at, Field.has_bomb_at] at hb ⊢
    simp [hb]
  · simp only [Bool.and_eq_true, Bool.not_eq_true', not_and] at h
    have hcond : ¬(f.has_bomb_at row col = false ∧ f.is_cursor_at row col = false) := by
      rintro ⟨h1, h2⟩
      exact h h1 h2
    simp [Field.set_bomb_at, hcond]

/-- C1 (code_bug evidence): on a 2×2 grid at density 50 with the random
stream constantly rolling `(0,1)`, `randomize` leaves only 1 bomb placed,
although the target count `ceil(2*2*50/100) = 2` does not exceed the 3
placeable non-cursor cells: the colliding second roll is silently dropped,
not re-rolled. -/
theorem randomize_drops_collision :
    ((squareField.randomize (fun _ => (0, 1))).bombTotal = 1) ∧
    ((squareField.rows * squareField.rows * squareField.bomb_pcnt + 99) / 100 = 2) ∧
    (squareField.rows * squareField.cols - 1 = 3) := by
  refine ⟨?_, by decide, by decide⟩
  decide

/-- C9 (code_bug evidence): `Field::new` accepts zero rows without
rejecting or clamping, and `inc_cursor(Vertical)` on the resulting field
evaluates `rows - 1` on `usize`, which underflows (a panic under Rust's
checked arithmetic). -/
theorem new_zero_rows_unchecked :
    zeroRowField.rows = 0 ∧ zeroRowField.inc_cursor Orientation.Vertical = none :=
  ⟨rfl, rfl⟩

/-- C7: `check_at` on a cell that carries a bomb returns immediately with
the field unchanged. -/
theorem check_at_bomb_no_op (f : Field) (row col fuel : Nat)
    (_hr : row < f.rows) (_hc : col < f.cols)
    (hb : (f.cells row col).pipebomb = true) :
    Field.check_at (fuel + 1) f row col = some f := by
  simp [Field.check_at, hb]

/-- Witness for `check_at_bomb_no_op` at the 1×1 bomb field. -/
theorem check_at_bomb_no_op_witness :
    0 < oneClosedBomb.rows ∧ 0 < oneClosedBomb.cols ∧
    (oneClosedBomb.cells 0 0).pipebomb = true ∧
    Field.check_at 1 oneClosedBomb 0 0 = some oneClosedBomb :=
  ⟨by decide, by decide, rfl,
    check_at_bomb_no_op oneClosedBomb 0 0 0 (by decide) (by decide) rfl⟩

/-- C5: `victory()` returns true iff every in-bounds non-hazard cell is
Open; the states of hazard cells do not occur in the condition. -/
theorem victory_iff (f : Field) :
    f.victory = true ↔
      ∀ i, i < f.rows → ∀ j, j < f.cols →
        (f.cells i j).pipebomb = false → (f.cells i j).state = State.Open := by
  simp only [Field.victory, List.all_eq_true, List.mem_range]
  constructor
  · intro h i hi j hj hpb
    have := h i hi j hj
    simp [hpb] at this
    exact this
  · intro h i hi j hj
    by_cases hpb : (f.cells i j).pipebomb = false
    · simp [hpb, h i hi j hj]
    · simp only [Bool.not_eq_false] at hpb
      simp [hpb]

/-! ### Divergence of the reveal cascade between adjacent Flagged cells

A zero-adjacency `Flagged` cell falls through the state `match` without
being opened and still recurses into all its neighbors, so two adjacent
zero-adjacency `Flagged` cells call `check_at` on each other forever. -/

/-- One unfolding of `check_at` at `(0,0)` of `twoFlagged`: the only
enabled neighbor visit is Right, to `(0,1)`, and the cell itself is left
Flagged. -/
theorem twoFlagged_step_left (n : Nat) :
    Field.check_at (n + 1) twoFlagged 0 0 =
      (Field.check_at n twoFlagged 0 1).bind (fun g => some g) := rfl

/-- One unfolding of `check_at` at `(0,1)` of `twoFlagged`: the only
enabled neighbor visit is Left, back to `(0,0)`. -/
theorem twoFlagged_step_right (n : Nat) :
    Field.check_at (n + 1) twoFlagged 0 1 =
      (Field.check_at n twoFlagged 0 0).bind (fun g => some g) := rfl

/-- The mutual recursion between the two Flagged cells consumes any
amount of fuel. -/
theorem twoFlagged_mutual (n : Nat) :
    Field.check_at n twoFlagged 0 0 = none ∧ Field.check_at n twoFlagged 0 1 = none := by
  induction n with
  | zero => exact ⟨rfl, rfl⟩
  | succ m ih =>
    refine ⟨?_, ?_⟩
    · rw [twoFlagged_step_left, ih.2]
      rfl
    · rw [twoFlagged_step_right, ih.1]
      rfl

/-- C2 (code_bug evidence): on the reachable state `twoFlagged`
(1×2 grid, no bombs, both cells Flagged), `check_at` does not terminate
from either cell: it runs out of any finite amount of fuel. -/
theorem check_at_diverges_on_twoFlagged (fuel : Nat) :
    Field.check_at fuel twoFlagged 0 1 = none ∧
    Field.check_at fuel twoFlagged 0 0 = none :=
  ⟨(twoFlagged_mutual fuel).2, (twoFlagged_mutual fuel).1⟩

/-- One unfolding of `check_at` at the Closed zero-adjacency cell `(0,0)`
of `threeFlagged`: the cell is opened, then the cascade visits `(0,1)`. -/
theorem threeFlagged_step_start (n : Nat) :
    Field.check_at (n + 1) threeFlagged 0 0 =
      (Field.check_at n threeFlaggedOpen 0 1).bind (fun g => some g) := rfl

/-- One unfolding at the Flagged cell `(0,1)`: it visits `(0,0)` (Left)
and then `(0,2)` (Right), staying Flagged itself. -/
theorem threeFlagged_step_mid (n : Nat) :
    Field.check_at (n + 1) threeFlaggedOpen 0 1 =
      (Field.check_at n threeFlaggedOpen 0 0).bind
        (fun g => (Field.check_at n g 0 2).bind (fun g2 => some g2)) := rfl

/-- `check_at` at the already-Open `(0,0)` cell returns at the cycle
guard. -/
theorem threeFlagged_step_open (n : Nat) :
    Field.check_at (n + 1) threeFlaggedOpen 0 0 = some threeFlaggedOpen := rfl

/-- One unfolding at the Flagged cell `(0,2)`: its only enabled visit is
Left, back to `(0,1)`. -/
theorem threeFlagged_step_end (n : Nat) :
    Field.check_at (n + 1) threeFlaggedOpen 0 2 =
      (Field.check_at n threeFlaggedOpen 0 1).bind (fun g => some g) := rfl

/-- The mutual recursion between the Flagged cells `(0,1)` and `(0,2)`
consumes any amount of fuel. -/
theorem threeFlagged_mutual (n : Nat) :
    Field.check_at n threeFlaggedOpen 0 1 = none ∧
    Field.check_at n threeFlaggedOpen 0 2 = none := by
  induction n with
  | zero => exact ⟨rfl, rfl⟩
  | succ m ih =>
    refine ⟨?_, ?_⟩
    · rw [threeFlagged_step_mid]
      cases m with
      | zero => rfl
      | succ k =>
        rw [threeFlagged_step_open, Option.some_bind, ih.2]
        rfl
    · rw [threeFlagged_step_end, ih.1]
      rfl

/-- C3 (code_bug evidence): revealing the Closed, hazard-free,
zero-adjacency cell `(0,0)` of `threeFlagged` never finishes: the
cascade loops forever between the two adjacent Flagged cells, so no
final opened region exists at all. -/
theorem check_at_diverges_on_threeFlagged (fuel : Nat) :
    Field.check_at fuel threeFlagged 0 0 = none := by
  cases fuel with
  | zero => rfl
  | succ n =>
    rw [threeFlagged_step_start, (threeFlagged_mutual n).1]
    rfl

/-! ### Frame invariant of the reveal cascade

`check_at` never changes the grid shape, the bomb layout or the cursor,
and the only state change it can make is setting a cell to `Open`, and
only when that cell is hazard-free and either was `Closed` or has a
positive adjacency count. -/

theorem evolves_refl (f : Field) : Evolves f f :=
  ⟨rfl, rfl, rfl, rfl, fun _ _ => ⟨rfl, Or.inl rfl⟩⟩

/-- `bombs_around` depends only on the grid shape and the bomb layout. -/
theorem bombs_around_congr (f f' : Field) (hr : f'.rows = f.rows)
    (hc : f'.cols = f.cols)
    (hpb : ∀ i j, (f'.cells i j).pipebomb = (f.cells i j).pipebomb)
    (ir ic : Int) : f'.bombs_around ir ic = f.bombs_around ir ic := by
  simp [Field.bombs_around, Field.has_bomb_at, hr, hc, hpb]

theorem evolves_trans {f g h : Field} (h1 : Evolves f g) (h2 : Evolves g h) :
    Evolves f h := by
  obtain ⟨r1, c1, p1, u1, e1⟩ := h1
  obtain ⟨r2, c2, p2, u2, e2⟩ := h2
  refine ⟨r2.trans r1, c2.trans c1, p2.trans p1, u2.trans u1, ?_⟩
  intro i j
  obtain ⟨pb1, st1⟩ := e1 i j
  obtain ⟨pb2, st2⟩ := e2 i j
  have hba : g.bombs_around (i : Int) (j : Int) = f.bombs_around (i : Int) (j : Int) :=
    bombs_around_congr f g r1 c1 (fun a b => (e1 a b).1) _ _
  refine ⟨pb2.trans pb1, ?_⟩
  rcases st2 with st2 | ⟨ho2, hpb2, hj2⟩
  · rcases st1 with st1 | ⟨ho1, hpb1, hj1⟩
    · exact Or.inl (st2.trans st1)
    · exact Or.inr ⟨st2.trans ho1, hpb1, hj1⟩
  · right
    refine ⟨ho2, pb1.symm.trans hpb2, ?_⟩
    rcases hj2 with hclosed | hba2
    · rcases st1 with st1 | ⟨ho1, hpb1, hj1⟩
      · exact Or.inl (st1.symm.trans hclosed)
      · exact absurd (ho1.symm.trans hclosed) (by simp)
    · exact Or.inr (hba ▸ hba2)

/-- Opening a hazard-free cell that is Closed or has positive adjacency
is an `Evolves` step. -/
theorem evolves_open_at (f : Field) (row col : Nat)
    (hpb : (f.cells row col).pipebomb = false)
    (hj : (f.cells row col).state = State.Closed ∨
      0 < f.bombs_around (row : Int) (col : Int)) :
    Evolves f (f.open_at row col) := by
  refine ⟨rfl, rfl, rfl, rfl, ?_⟩
  intro i j
  by_cases hij : i = row ∧ j = col
  · obtain ⟨hi, hj'⟩ := hij
    subst hi
    subst hj'
    refine ⟨by simp [Field.open_at, Field.set_cell], ?_⟩
    exact Or.inr ⟨by simp [Field.open_at, Field.set_cell], hpb, hj⟩
  · exact ⟨by simp [Field.open_at, Field.set_cell, hij],
      Or.inl (by simp [Field.open_at, Field.set_cell, hij])⟩

/-- The fold over the eight guarded neighbor visits preserves `Evolves`
as soon as each individual `check_at` call does. -/
theorem foldlM_evolves (fuel : Nat)
    (IH : ∀ g r c g', Field.check_at fuel g r c = some g' → Evolves g g')
    (l : List (Bool × Nat × Nat)) :
    ∀ f f',
      l.foldlM
        (fun g step => if step.1 then Field.check_at fuel g step.2.1 step.2.2 else some g)
        f = some f' →
      Evolves f f' := by
  induction l with
  | nil =>
    intro f f' h
    rw [List.foldlM_nil] at h
    cases h
    exact evolves_refl f
  | cons a l ih =>
    intro f f' h
    rw [List.foldlM_cons] at h
    cases hstep : (if a.1 then Field.check_at fuel f a.2.1 a.2.2 else some f) with
    | none => rw [hstep] at h; cases h
    | some g =>
      rw [hstep] at h
      have h' : l.foldlM
          (fun g step => if step.1 then Field.check_at fuel g step.2.1 step.2.2 else some g)
          g = some f' := h
      have hfg : Evolves f g := by
        by_cases ha : a.1 = true
        · rw [ha] at hstep
          simp only [if_true] at hstep
          exact IH f a.2.1 a.2.2 g hstep
        · simp only [Bool.not_eq_true] at ha
          rw [ha] at hstep
          simp only [Bool.false_eq_true, if_false, Option.some.injEq] at hstep
          exact hstep ▸ evolves_refl f
      exact evolves_trans hfg (ih g f' h')

/-- The master frame lemma: every terminating `check_at` run is an
`Evolves` step. -/
theorem check_at_evolves :
    ∀ fuel f row col f', Field.check_at fuel f row col = some f' → Evolves f f' := by
  intro fuel
  induction fuel with
  | zero =>
    intro f row col f' h
    cases h
  | succ n ih =>
    intro f row col f' h
    rw [Field.check_at] at h
    by_cases h1 : (f.cells row col).pipebomb = true
    · rw [if_pos h1] at h
      cases h
      exact evolves_refl f
    · rw [if_neg h1] at h
      simp only [Bool.not_eq_true] at h1
      by_cases h2 : 0 < f.bombs_around (row : Int) (col : Int)
      · rw [if_pos h2] at h
        cases h
        exact evolves_open_at f row col h1 (Or.inr h2)
      · rw [if_neg h2] at h
        by_cases h3 : (f.cells row col).state = State.Open
        · rw [if_pos h3] at h
          cases h
          exact evolves_refl f
        · rw [if_neg h3] at h
          have hEv1 : Evolves f
              (if (f.cells row col).state = State.Closed then f.open_at row col else f) := by
            by_cases h4 : (f.cells row col).state = State.Closed
            · rw [if_pos h4]
              exact evolves_open_at f row col h1 (Or.inl h4)
            · rw [if_neg h4]
              exact evolves_refl f
          exact evolves_trans hEv1 (foldlM_evolves n ih _ _ _ h)

/-- C4 (counterexample): on `flagBorderField` the cascade started at the
Closed zero-adjacency cell `(0,0)` opens the Flagged hazard-free cell
`(0,1)` (its adjacency is 1), so a cell that was Flagged beforehand is no
longer Flagged afterwards. -/
theorem check_at_opens_flagged_border :
    ((flagBorderField.cells 0 1).state = State.Flagged) ∧
    ((Field.check_at 2 flagBorderField 0 0).map (fun g => (g.cells 0 1).state) =
      some State.Open) :=
  ⟨rfl, rfl⟩

/-- C4 (amended): a terminating `check_at` cascade never alters a Flagged
cell that carries a hazard or whose adjacency count is zero; only a
hazard-free Flagged cell with positive adjacency can be altered (it is
then opened). -/
theorem check_at_preserves_safe_flagged (fuel : Nat) (f : Field) (row col : Nat)
    (f' : Field) (h : Field.check_at fuel f row col = some f') (i j : Nat)
    (hfl : (f.cells i j).state = State.Flagged)
    (hsafe : (f.cells i j).pipebomb = true ∨
      f.bombs_around (i : Int) (j : Int) = 0) :
    (f'.cells i j).state = State.Flagged := by
  obtain ⟨-, -, -, -, e⟩ := check_at_evolves fuel f row col f' h
  obtain ⟨pb, st⟩ := e i j
  rcases st with st | ⟨ho, hpb, hj⟩
  · exact st.trans hfl
  · rcases hsafe with hb | hz
    · rw [hb] at hpb
      cases hpb
    · rcases hj with hcl | hba
      · rw [hfl] at hcl
        cases hcl
      · rw [hz] at hba
        exact absurd hba (lt_irrefl 0)

/-- Witness for `check_at_preserves_safe_flagged`: a 1×1 Flagged
hazard-free field, where the (terminating) cascade leaves the cell
Flagged. -/
theorem check_at_preserves_safe_flagged_witness :
    (oneFlagged.cells 0 0).state = State.Flagged ∧
    Field.check_at 1 oneFlagged 0 0 = some oneFlagged ∧
    (oneFlagged.cells 0 0).state = State.Flagged :=
  ⟨rfl, rfl,
    check_at_preserves_safe_flagged 1 oneFlagged 0 0 oneFlagged rfl 0 0 rfl
      (Or.inr rfl)⟩

/-- C8: `open_at_cursor` always returns the hazard flag of the cursor
cell (the flag is unchanged by any branch), and when the cursor cell is
already Open the call is a no-op that still reports that flag. -/
theorem open_at_cursor_reports_hazard (fuel : Nat) (f : Field) (confirm : Bool) :
    (∀ f' b, Field.open_at_cursor fuel f confirm = some (f', b) →
      b = (f.cells f.cursor.1 f.cursor.2).pipebomb) ∧
    ((f.cells f.cursor.1 f.cursor.2).state = State.Open →
      Field.open_at_cursor fuel f confirm =
        some (f, (f.cells f.cursor.1 f.cursor.2).pipebomb)) := by
  constructor
  · intro f' b h
    cases hst : (f.cells f.cursor.1 f.cursor.2).state with
    | Open =>
      simp only [Field.open_at_cursor, hst, Option.some.injEq, Prod.mk.injEq] at h
      exact h.2.symm
    | Closed =>
      simp only [Field.open_at_cursor, hst, Option.map_eq_some'] at h
      obtain ⟨g, hg, hgf⟩ := h
      obtain ⟨-, -, -, -, e⟩ := check_at_evolves fuel f f.cursor.1 f.cursor.2 g hg
      have hb : b = (g.cells f.cursor.1 f.cursor.2).pipebomb := by
        have hsnd := congrArg Prod.snd hgf
        simpa using hsnd.symm
      exact hb.trans ((e f.cursor.1 f.cursor.2).1)
    | Flagged =>
      by_cases hcf : confirm = true
      · simp only [Field.open_at_cursor, hst, hcf, if_true, Option.map_eq_some'] at h
        obtain ⟨g, hg, hgf⟩ := h
        obtain ⟨-, -, -, -, e⟩ := check_at_evolves fuel f f.cursor.1 f.cursor.2 g hg
        have hb : b = (g.cells f.cursor.1 f.cursor.2).pipebomb := by
          have hsnd := congrArg Prod.snd hgf
          simpa using hsnd.symm
        exact hb.trans ((e f.cursor.1 f.cursor.2).1)
      · simp only [Bool.not_eq_true] at hcf
        simp only [Field.open_at_cursor, hst, hcf, Bool.false_eq_true, if_false,
          Option.some.injEq, Prod.mk.injEq] at h
        exact h.2.symm
  · intro hst
    simp only [Field.open_at_cursor, hst]

/-- Witness for `open_at_cursor_reports_hazard`: a no-op call on the 1×1
field whose Open cell carries a bomb still reports `true`. -/
theorem open_at_cursor_reports_hazard_witness :
    (oneOpenBomb.cells 0 0).state = State.Open ∧
    Field.open_at_cursor 0 oneOpenBomb false =
      some (oneOpenBomb, (oneOpenBomb.cells 0 0).pipebomb) ∧
    (oneOpenBomb.cells 0 0).pipebomb = true :=
  ⟨rfl, (open_at_cursor_reports_hazard 0 oneOpenBomb false).2 rfl, rfl⟩

/-! ### Adjacency counting -/

/-- Each two-branch counting step adds its own indicator to the
accumulator. -/
theorem ite_count_step (P Q : Prop) [Decidable P] [Decidable Q] (a : Nat) :
    (if P then a else if Q then a + 1 else a) = a + indicator P Q := by
  unfold indicator
  by_cases hP : P
  · simp [hP]
  · by_cases hQ : Q <;> simp [hP, hQ]

/-- The spec-side indicator has the same shape. -/
theorem ite_count_base (P Q : Prop) [Decidable P] [Decidable Q] :
    (if P then 0 else if Q then 1 else 0) = indicator P Q := rfl

/-- C6: `bombs_around` returns exactly the number of bomb-carrying cells
among the up-to-8 in-bounds neighbors: one indicator per proper neighbor
offset, out-of-bounds offsets contributing nothing, the cell itself never
counted.  (Both sides are pure functions of the field.) -/
theorem bombs_around_eq_neighborCount (f : Field) (irow icol : Int) :
    f.bombs_around irow icol = f.neighborCount irow icol := by
  simp only [Field.bombs_around, Field.neighborCount, neighborOffsets,
    List.foldl_cons, List.foldl_nil, List.map_cons, List.map_nil,
    List.sum_cons, List.sum_nil]
  norm_num [ite_count_step, ite_count_base]
  omega

/-- C10 (count agreement): the count inlined in `cell_str_at` coincides
with `bombs_around`, and the rendered glyph of an in-bounds, hazard-free
cell is its adjacency digit, or a blank at adjacency zero. -/
theorem cell_str_at_agrees (f : Field) (row col : Nat)
    (_hr : row < f.rows) (_hc : col < f.cols)
    (hb : f.has_bomb_at row col = false) :
    f.cell_str_count row col = f.bombs_around (row : Int) (col : Int) ∧
    f.cell_str_at row col =
      (if 0 < f.bombs_around (row : Int) (col : Int) then
        toString (f.bombs_around (row : Int) (col : Int)) else " ") := by
  refine ⟨rfl, ?_⟩
  simp only [Field.cell_str_at, hb, Bool.false_eq_true, if_false]
  rfl

/-- Witness for `cell_str_at_agrees` at cell `(0,1)` of
`flagBorderField` (adjacency 1). -/
theorem cell_str_at_agrees_witness :
    flagBorderField.has_bomb_at 0 1 = false ∧
    flagBorderField.cell_str_count 0 1 =
      flagBorderField.bombs_around (0 : Int) (1 : Int) ∧
    flagBorderField.cell_str_at 0 1 =
      (if 0 < flagBorderField.bombs_around (0 : Int) (1 : Int) then
        toString (flagBorderField.bombs_around (0 : Int) (1 : Int)) else " ") :=
  ⟨rfl,
    (cell_str_at_agrees flagBorderField 0 1 (by decide) (by decide) rfl).1,
    (cell_str_at_agrees flagBorderField 0 1 (by decide) (by decide) rfl).2⟩

end Sweeper
